import Mathlib

/-!
Verification of the dynamic line rating core of the AEP Dynamic Grid Load
Challenge repository (IEEE 738 ampacity solver, load predictor, status
classifier, N-1 contingency analyzer, and the frontend API service layer).

The repository ships the frontend sources and the backend README; the backend
Python modules (ieee738.py, load_model.py, the contingency endpoint) are not
part of the checked-in sources, so those components are modelled from the
specification, as indicated on each definition.  The 24-entry time-of-day
load-factor table, the status legend, and the API fallback logic are embedded
directly from the frontend sources.
-/

namespace DLR

/-- Operating-risk status levels (spec 4.3; backend README "Status Values";
MapView legend in the frontend sources). -/
inductive Status where
| Normal : Status
| Warning : Status
| Critical : Status
deriving DecidableEq

/-- Modelled from the spec: the backend StatusClassifier (`classify` in the
missing backend source, documented in backend README "Status Values" and the
MapView legend): Normal below 80 percent, Warning in [80, 95), Critical at or
above 95 percent utilization. -/
def classify (utilization_pct : ℚ) : Status :=
if utilization_pct < 80 then Status.Normal
else if utilization_pct < 95 then Status.Warning
else Status.Critical

/-- The 24-entry hourly load-factor table, copied verbatim from
`loadFactors` in the WeatherControls frontend component (src/unnamed/part_002,
lines 91-95). -/
def loadFactors : List ℚ :=
[1.0, 0.974, 0.95, 0.929, 0.913, 0.903, 0.9, 0.903,
 0.913, 0.929, 0.95, 0.974, 1.0, 1.026, 1.05, 1.071,
 1.087, 1.097, 1.1, 1.097, 1.087, 1.071, 1.05, 1.026]

/-- Hourly lookup into `loadFactors`; hours outside 0..23 fall back to the
neutral multiplier 1 (the source only ever indexes with 0..23). -/
def loadFactor (hour : ℕ) : ℚ := loadFactors.getD hour 1

/-- A transmission line record (spec section 3 TransmissionLine; CSV columns
of the Hawaii 40-bus topology described in the backend README). -/
structure TransmissionLine where
  line_id : String
  line_name : String
  bus0 : String
  bus1 : String
  voltage_kv : ℚ
  reactance_pu : ℚ
  static_rating_mva : ℚ
  baseline_fraction : ℚ
deriving DecidableEq

/-- A weather state (spec section 3 WeatherState; request fields of the
backend `/calculate_ampacity` endpoint). -/
structure WeatherState where
  temp_ambient_c : ℚ
  wind_speed_ms : ℚ
  wind_angle_deg : ℚ
  solar_altitude : ℚ
  humidity_pct : ℚ
deriving DecidableEq

/-- Physically sane weather bounds from spec section 3: temperature within
[-50, 70] Celsius, nonnegative wind speed, wind angle within [0, 90] degrees,
solar altitude within [0, 90] degrees, humidity a percentage. -/
def WeatherState.valid (w : WeatherState) : Prop :=
-50 ≤ w.temp_ambient_c ∧ w.temp_ambient_c ≤ 70 ∧
0 ≤ w.wind_speed_ms ∧
0 ≤ w.wind_angle_deg ∧ w.wind_angle_deg ≤ 90 ∧
0 ≤ w.solar_altitude ∧ w.solar_altitude ≤ 90 ∧
0 ≤ w.humidity_pct ∧ w.humidity_pct ≤ 100

/-- Modelled from the spec: baseline load of a line (spec 4.2), the per-line
baseline fraction of the static nameplate rating. -/
def baseline_load_mw (line : TransmissionLine) : ℚ :=
line.baseline_fraction * line.static_rating_mva

/-- Neutral comfort point for the load model, 22 Celsius (spec 4.2). -/
def comfort_temp_c : ℚ := 22

/-- Modelled from the spec: the fixed cooling-demand elasticity per degree
above the comfort point (spec 4.2 gives the structure but not the numeric
rate; 0.02 per degree is used here). -/
def temp_sensitivity_per_c : ℚ := 0.02

/-- Modelled from the spec: multiplicative weather adjustment of the load
model (spec 4.2) - load rises linearly with ambient temperature above the
22 Celsius comfort point and is unchanged below it.  The optional humidity
amplification mentioned by the spec is not included. -/
def weather_adjustment (w : WeatherState) : ℚ :=
1 + temp_sensitivity_per_c * max 0 (w.temp_ambient_c - comfort_temp_c)

/-- Modelled from the spec: `predict` of the LoadPredictor (spec 4.2, backend
load_model.py missing from the sources): megawatt load equals baseline load
times the time-of-day multiplier times the weather adjustment, the two
multipliers stacking multiplicatively. -/
def predict_load_mw (line : TransmissionLine) (hour : ℕ) (w : WeatherState) : ℚ :=
baseline_load_mw line * loadFactor hour * weather_adjustment w

/-- Assumed power factor for current conversion (spec 4.2 and 9: a named
configuration constant defaulting to 1). -/
def power_factor : ℚ := 1

/-- Modelled from the spec: current conversion of the LoadPredictor
(spec 4.2): amperes = MW x 1000 / (sqrt 3 x kV x power factor). -/
noncomputable def predict_current_a (line : TransmissionLine) (hour : ℕ) (w : WeatherState) : ℝ :=
(predict_load_mw line hour w : ℝ) * 1000 / (Real.sqrt 3 * (line.voltage_kv : ℝ) * (power_factor : ℝ))

/-- Weather metadata attached to the fallback response of the frontend API
service (src/unnamed/part_006, line 87). -/
structure WeatherInfo where
  source : String
  temperature_c : ℚ
  wind_speed_ms : ℚ
deriving DecidableEq

/-- Custom weather the frontend caller may supply in manual mode
(src/unnamed/part_006, lines 69-74). -/
structure CustomWeather where
  temperature : ℚ
  windSpeed : ℚ
  solarAltitude : ℚ
  humidity : ℚ
deriving DecidableEq

/-- Query parameters assembled by `getAllLinesWithWeather` for the
weather-enabled endpoint (src/unnamed/part_006, lines 62-75). -/
structure RequestParams where
  weather_source : String
  scenario_name : String
  limit : Option ℕ
  temp_ambient_c : Option ℚ
  wind_speed_ms : Option ℚ
  solar_altitude : Option ℚ
  humidity_pct : Option ℚ
deriving DecidableEq

/-- JavaScript truthiness of the `if (limit) params.limit = limit` guard in
the API service: a null or zero limit is omitted from the request. -/
def truthy_limit (limit : Option ℕ) : Option ℕ :=
match limit with
| none => none
| some n => if n = 0 then none else some n

/-- Parameter assembly of `getAllLinesWithWeather` (src/unnamed/part_006,
lines 62-74): custom weather fields are added only in manual mode. -/
def build_weather_params (weatherSource scenarioName : String) (limit : Option ℕ)
    (customWeather : Option CustomWeather) : RequestParams :=
match customWeather with
| some cw =>
  if weatherSource = "manual" then
    ⟨weatherSource, scenarioName, truthy_limit limit,
     some cw.temperature, some cw.windSpeed, some cw.solarAltitude, some cw.humidity⟩
  else
    ⟨weatherSource, scenarioName, truthy_limit limit, none, none, none, none⟩
| none => ⟨weatherSource, scenarioName, truthy_limit limit, none, none, none, none⟩

/-- Response shape returned by `getAllLinesWithWeather`
(src/unnamed/part_006, lines 86-90). -/
structure LinesPayload (α : Type) where
  weather : WeatherInfo
  total_lines : ℕ
  lines : List α
deriving DecidableEq

/-- The hardcoded weather metadata of the fallback branch
(src/unnamed/part_006, line 87). -/
def default_fallback_weather : WeatherInfo := ⟨"default", 30, 2⟩

/-- `apiService.getAllLinesWithWeather` (src/unnamed/part_006, lines 59-92):
try the weather-enabled endpoint first; if that request throws, fall back to
the plain `/get_all_lines` endpoint and wrap its response array in the
expected payload shape.  The two HTTP calls are passed in as functions. -/
def getAllLinesWithWeather {α : Type} (weatherSource scenarioName : String)
    (limit : Option ℕ) (customWeather : Option CustomWeather)
    (callWeatherEndpoint : RequestParams → Except String (LinesPayload α))
    (callGetAllLines : Option ℕ → Except String (List α)) :
    Except String (LinesPayload α) :=
match callWeatherEndpoint (build_weather_params weatherSource scenarioName limit customWeather) with
| Except.ok payload => Except.ok payload
| Except.error _ =>
  match callGetAllLines (truthy_limit limit) with
  | Except.ok ls => Except.ok ⟨default_fallback_weather, ls.length, ls⟩
  | Except.error e => Except.error e

/-- Network topology: the bus/line graph, used only by the contingency
analyzer (spec section 3). -/
structure Topology where
  lines : List TransmissionLine
deriving DecidableEq

/-- Modelled from the spec: the parallel circuits of a failed line - the
other lines joining the same pair of buses, in either orientation.  Lines
electrically distant from the failure receive a distribution factor of zero
and are excluded from the affected-lines report (spec 4.4). -/
def parallel_lines (tp : Topology) (f : TransmissionLine) : List TransmissionLine :=
tp.lines.filter fun l =>
  decide (l.line_id ≠ f.line_id ∧
    ((l.bus0 = f.bus0 ∧ l.bus1 = f.bus1) ∨ (l.bus0 = f.bus1 ∧ l.bus1 = f.bus0)))

/-- Reactance-weighted sensitivity weight of a line (inverse series
reactance; spec 4.4 "reactance-weighted topology"). -/
def susceptance (l : TransmissionLine) : ℚ := 1 / l.reactance_pu

/-- Modelled from the spec: line outage distribution factor.  The spec
(section 9) leaves the exact sensitivity formula open and makes the
conservation property of section 8 the acceptance criterion; the factor here
distributes the failed flow over the parallel circuits proportionally to
their susceptance, and is zero for non-parallel lines. -/
def lodf (tp : Topology) (f l : TransmissionLine) : ℚ :=
susceptance l / ((parallel_lines tp f).map susceptance).sum

/-- One affected-line record of a ContingencyResult (spec section 3; field
names from the frontend Contingency component, src/unnamed/part_004). -/
structure AffectedLine where
  line_id : String
  baseline_flow_mw : ℚ
  contingency_flow_mw : ℚ
  flow_increase_mw : ℚ
  flow_increase_pct : ℚ
  baseline_utilization_pct : ℚ
  contingency_utilization_pct : ℚ
  utilization_increase_pct : ℚ
  status : Status
deriving DecidableEq

/-- Modelled from the spec: the affected-line record for remaining line l
after the outage of f (spec 4.4): post-outage flow is the baseline flow plus
LODF times the failed line's pre-outage flow, utilization is recomputed
against the line's ampacity in MVA (held fixed at the supplied weather) and
reclassified with the shared classifier. -/
def mk_affected (tp : Topology) (flows ratings : String → ℚ) (f l : TransmissionLine) : AffectedLine :=
⟨l.line_id,
 flows l.line_id,
 flows l.line_id + lodf tp f l * flows f.line_id,
 lodf tp f l * flows f.line_id,
 lodf tp f l * flows f.line_id / flows l.line_id * 100,
 flows l.line_id / ratings l.line_id * 100,
 (flows l.line_id + lodf tp f l * flows f.line_id) / ratings l.line_id * 100,
 (flows l.line_id + lodf tp f l * flows f.line_id) / ratings l.line_id * 100 -
   flows l.line_id / ratings l.line_id * 100,
 classify ((flows l.line_id + lodf tp f l * flows f.line_id) / ratings l.line_id * 100)⟩

/-- Ranking order of affected lines (spec 4.4): descending by utilization
increase, ties broken by post-outage utilization descending, then by line
identifier for determinism. -/
def ranked_before (a b : AffectedLine) : Bool :=
decide (b.utilization_increase_pct < a.utilization_increase_pct) ||
  (decide (a.utilization_increase_pct = b.utilization_increase_pct) &&
    (decide (b.contingency_utilization_pct < a.contingency_utilization_pct) ||
      (decide (a.contingency_utilization_pct = b.contingency_utilization_pct) &&
        decide (a.line_id ≤ b.line_id))))

/-- Aggregate contingency summary (spec 4.4; field names from the frontend
Contingency component). -/
structure ContingencySummary where
  total_affected_lines : ℕ
  overloaded_lines : ℕ
  critical_lines : ℕ
  warning_lines : ℕ
  redistributed_power_mw : ℚ
deriving DecidableEq

/-- Modelled from the spec: summary aggregates (spec 4.4): counts of lines
at or above 100 / 95 / 80 percent post-outage utilization and the total
absolute flow change across affected lines. -/
def summarize (affected : List AffectedLine) : ContingencySummary :=
⟨affected.length,
 (affected.filter fun a => decide (100 ≤ a.contingency_utilization_pct)).length,
 (affected.filter fun a => decide (95 ≤ a.contingency_utilization_pct)).length,
 (affected.filter fun a => decide (80 ≤ a.contingency_utilization_pct)).length,
 (affected.map fun a => |a.flow_increase_mw|).sum⟩

/-- ContingencyResult (spec section 3): failed line id and pre-outage flow,
ranked affected-line records, aggregate summary. -/
structure ContingencyResult where
  failed_line_id : String
  failed_flow_mw : ℚ
  affected_lines : List AffectedLine
  summary : ContingencySummary
deriving DecidableEq

/-- Modelled from the spec: `analyze` of the ContingencyAnalyzer (spec 4.4;
the backend module is missing from the sources).  An unknown failed-line id
is a validation error (none); otherwise the failed line's pre-outage flow is
redistributed over its parallel circuits, records are ranked and summarized.
Per-line ampacity in MVA enters as the precomputed `ratings` map (the spec
holds ampacity fixed at the supplied weather state). -/
def analyze (tp : Topology) (flows ratings : String → ℚ) (failed_line_id : String) :
    Option ContingencyResult :=
match tp.lines.find? (fun l => l.line_id == failed_line_id) with
| none => none
| some f =>
  some ⟨failed_line_id, flows failed_line_id,
    ((parallel_lines tp f).map (mk_affected tp flows ratings f)).mergeSort ranked_before,
    summarize (((parallel_lines tp f).map (mk_affected tp flows ratings f)).mergeSort ranked_before)⟩

/-- Concrete line used by witnesses: a drake-conductor 138 kV line between
buses a and b. -/
def l0W : TransmissionLine := ⟨"L0", "line zero", "a", "b", 138, 1/10, 228, 7/10⟩

/-- Concrete parallel circuit of l0W used by witnesses. -/
def l1W : TransmissionLine := ⟨"L1", "line one", "a", "b", 138, 1/5, 228, 7/10⟩

/-- Concrete parallel circuit of l0W in the opposite orientation, used by
witnesses. -/
def l2W : TransmissionLine := ⟨"L2", "line two", "b", "a", 138, 1/5, 150, 7/10⟩

/-- Concrete radial line (no parallel path), used by witnesses. -/
def l3W : TransmissionLine := ⟨"L3", "line three", "b", "c", 69, 3/10, 70, 7/10⟩

/-- Concrete four-line topology used by witnesses. -/
def tpW : Topology := ⟨[l0W, l1W, l2W, l3W]⟩

/-- Concrete baseline flow solution used by witnesses. -/
def flowsW : String → ℚ :=
fun id => if id = "L0" then 100 else if id = "L1" then 40 else if id = "L2" then 20 else 10

/-- Concrete per-line ampacity map used by witnesses. -/
def ratingsW : String → ℚ := fun _ => 200

/-- Conductor physical/electrical properties (spec section 3 ConductorSpec),
together with the maximum allowed operating temperature at which the heat
balance is solved (spec 4.1; the backend default is 75 Celsius). -/
structure ConductorSpec where
  diameter_m : ℚ
  r_low_ohm_per_m : ℚ
  r_high_ohm_per_m : ℚ
  emissivity : ℚ
  absorptivity : ℚ
  temp_conductor_max_c : ℚ
deriving DecidableEq

/-- ConductorSpec invariant (spec section 3): positive diameter, emissivity
and absorptivity within [0, 1], and 0 < Rlow < Rhigh. -/
def ConductorSpec.valid (c : ConductorSpec) : Prop :=
0 < c.diameter_m ∧ 0 ≤ c.emissivity ∧ c.emissivity ≤ 1 ∧
0 ≤ c.absorptivity ∧ c.absorptivity ≤ 1 ∧
0 < c.r_low_ohm_per_m ∧ c.r_low_ohm_per_m < c.r_high_ohm_per_m

/-- Film temperature, the mean of the maximum conductor temperature and the
ambient temperature, at which air properties are evaluated (spec 4.1). -/
def film_temp_c (c : ConductorSpec) (w : WeatherState) : ℚ :=
(c.temp_conductor_max_c + w.temp_ambient_c) / 2

/-- Modelled from the spec: air density at the film temperature (spec 4.1
step 3 names the dependency but not the exact correlation; an ideal-gas
fall-off with temperature is used). -/
def air_density (tf : ℚ) : ℚ := 1.293 / (1 + 0.00367 * tf)

/-- Modelled from the spec: dynamic air viscosity at the film temperature
(spec 4.1 step 3 names the dependency but not the exact correlation; a
linear growth with temperature is used). -/
def air_viscosity (tf : ℚ) : ℚ := (17.2 + 0.048 * tf) / 1000000

/-- Reynolds number of the cross-flow: diameter times air density times wind
speed over air viscosity, all at the film temperature. -/
def reynolds (c : ConductorSpec) (w : WeatherState) : ℚ :=
c.diameter_m * air_density (film_temp_c c w) * w.wind_speed_ms /
  air_viscosity (film_temp_c c w)

/-- Sine of an angle given in degrees. -/
noncomputable def sin_deg (deg : ℚ) : ℝ := Real.sin ((deg : ℝ) * Real.pi / 180)

/-- Thermal conductivity of air, a fixed constant here (spec 4.1 step 3
lists only density and viscosity as film-temperature dependent). -/
def k_air : ℚ := 0.0263

/-- Modelled from the spec: natural-convection estimate (spec 4.1 step 3), a
function of the air density at the film temperature and of the temperature
rise Tc_max minus Ta, in the standard IEEE 738 form. -/
noncomputable def qc_natural (c : ConductorSpec) (w : WeatherState) : ℝ :=
3.645 * (air_density (film_temp_c c w) : ℝ) ^ (0.5 : ℝ) *
  (c.diameter_m : ℝ) ^ (0.75 : ℝ) *
  ((c.temp_conductor_max_c - w.temp_ambient_c : ℚ) : ℝ) ^ (1.25 : ℝ)

/-- Modelled from the spec: forced-convection estimate (spec 4.1 step 3), a
function of wind speed through the Reynolds number, of the effective wind
angle via sin(angle), of film-temperature air properties and of the
diameter. -/
noncomputable def qc_forced (c : ConductorSpec) (w : WeatherState) : ℝ :=
sin_deg w.wind_angle_deg * (1.01 + 1.347 * (reynolds c w : ℝ) ^ (0.52 : ℝ)) *
  (k_air : ℝ) * ((c.temp_conductor_max_c - w.temp_ambient_c : ℚ) : ℝ)

/-- Convective heat loss: the maximum of the natural and forced estimates,
per the standard's requirement that convection never underestimates cooling
at low wind speeds (spec 4.1 step 3). -/
noncomputable def qc_convective (c : ConductorSpec) (w : WeatherState) : ℝ :=
max (qc_natural c w) (qc_forced c w)

/-- Radiative heat loss (spec 4.1 step 2):
Qr = 17.8 x D x emissivity x (((Tc+273)/100)^4 - ((Ta+273)/100)^4). -/
def qr_radiative (c : ConductorSpec) (w : WeatherState) : ℚ :=
17.8 * c.diameter_m * c.emissivity *
  (((c.temp_conductor_max_c + 273) / 100) ^ 4 - ((w.temp_ambient_c + 273) / 100) ^ 4)

/-- Modelled from the spec: clear-sky solar heat flux keyed by solar
altitude, exactly zero at or below the horizon (spec 4.1 step 4; a smooth
standard approximation stands in for the standard's table). -/
noncomputable def q_se (solar_altitude : ℚ) : ℝ :=
if solar_altitude ≤ 0 then 0 else 1000 * sin_deg solar_altitude

/-- Solar heat gain (spec 4.1 step 4): absorptivity times the clear-sky flux
times the sine of the solar incidence angle times the projected conductor
area, and exactly zero at or below the horizon. -/
noncomputable def qs_solar (c : ConductorSpec) (w : WeatherState) : ℝ :=
if w.solar_altitude ≤ 0 then 0
else (c.absorptivity : ℝ) * q_se w.solar_altitude * sin_deg w.solar_altitude *
  (c.diameter_m : ℝ)

/-- Net heat-dissipation budget at Tc_max: Qc + Qr - Qs (spec 4.1 step 5). -/
noncomputable def q_net (c : ConductorSpec) (w : WeatherState) : ℝ :=
qc_convective c w + (qr_radiative c w : ℝ) - qs_solar c w

/-- Modelled from the spec: `rate` of the ThermalRatingEngine (spec 4.1; the
backend ieee738.py is missing from the sources):
I = sqrt(max(0, Qc + Qr - Qs) / R(Tc_max)), with R(Tc_max) the supplied
high-temperature resistance and the radicand clamped at zero. -/
noncomputable def rate (c : ConductorSpec) (w : WeatherState) : ℝ :=
Real.sqrt (max 0 (q_net c w) / (c.r_high_ohm_per_m : ℝ))

/-- Apparent-power conversion of an ampacity (spec 4.1 step 6):
MVA = sqrt 3 x kV x A / 1000. -/
noncomputable def ampacity_mva (voltage_kv : ℚ) (ampacity_a : ℝ) : ℝ :=
Real.sqrt 3 * (voltage_kv : ℝ) * ampacity_a / 1000

/-- Concrete drake-class conductor used by witnesses. -/
def condW : ConductorSpec := ⟨0.028, 0.00007, 0.00009, 0.5, 0.5, 75⟩

/-- Concrete weather state used by witnesses: 35 Celsius, 1.5 m/s wind. -/
def weatherW : WeatherState := ⟨35, 1.5, 90, 45, 70⟩

/-- The witness weather with the wind raised to 3 m/s. -/
def weatherWindW : WeatherState := ⟨35, 3, 90, 45, 70⟩

/-- The witness weather with the ambient raised to 42 Celsius. -/
def weatherHotW : WeatherState := ⟨42, 1.5, 90, 45, 70⟩

/-- Conductor whose maximum temperature equals the witness ambient, used by
the zero-clamp witness. -/
def condZeroW : ConductorSpec := ⟨0.028, 0.00007, 0.00009, 0.5, 0.5, 30⟩

/-- Windless solar-noon weather at 30 Celsius used by the zero-clamp
witness. -/
def weatherZeroW : WeatherState := ⟨30, 0, 0, 90, 50⟩

/-- C1: classify is total on the nonnegative reals and returns Normal exactly
below 80, Warning exactly on [80, 95) and Critical exactly at or above 95; in
particular 79.9 is Normal, 80.0 is Warning, 94.9 is Warning and 95.0 is
Critical. -/
theorem classify_thresholds (u : ℚ) (_hu : 0 ≤ u) :
    ((classify u = Status.Normal ↔ u < 80) ∧
     (classify u = Status.Warning ↔ 80 ≤ u ∧ u < 95) ∧
     (classify u = Status.Critical ↔ 95 ≤ u)) ∧
    (classify 79.9 = Status.Normal ∧ classify 80 = Status.Warning ∧
     classify 94.9 = Status.Warning ∧ classify 95 = Status.Critical) := by
  refine ⟨?_, by norm_num [classify]⟩
  unfold classify
  split_ifs with h1 h2
  · refine ⟨by simp [h1], ?_, ?_⟩
    · simp only [reduceCtorEq, false_iff, not_and]
      intro h80
      linarith
    · simp only [reduceCtorEq, false_iff, not_le]
      linarith
  · refine ⟨by simp [h1], ?_, ?_⟩
    · simp only [true_iff]
      exact ⟨le_of_not_lt h1, h2⟩
    · simp only [reduceCtorEq, false_iff, not_le]
      linarith
  · refine ⟨by simp [h1], ?_, ?_⟩
    · simp only [reduceCtorEq, false_iff, not_and]
      intro h80
      linarith
    · simp only [true_iff]
      exact le_of_not_lt h2

/-- Witness for C1 at the concrete utilization 42. -/
theorem classify_thresholds_witness :
    (0 : ℚ) ≤ 42 ∧
    (((classify 42 = Status.Normal ↔ (42 : ℚ) < 80) ∧
      (classify 42 = Status.Warning ↔ (80 : ℚ) ≤ 42 ∧ (42 : ℚ) < 95) ∧
      (classify 42 = Status.Critical ↔ (95 : ℚ) ≤ 42)) ∧
     (classify 79.9 = Status.Normal ∧ classify 80 = Status.Warning ∧
      classify 94.9 = Status.Warning ∧ classify 95 = Status.Critical)) :=
  ⟨by norm_num, classify_thresholds 42 (by norm_num)⟩

/-- C8: the time-of-day multiplier is a fixed 24-entry table with minimum
0.90 at hour 6 and maximum 1.10 at hour 18, and `predict` applies the hour
multiplier multiplicatively to the baseline load (baseline fraction times
static rating). -/
theorem loadFactors_table_spec :
    loadFactors.length = 24 ∧
    loadFactor 6 = 0.9 ∧ loadFactor 18 = 1.1 ∧
    (∀ h : ℕ, h < 24 → 0.9 ≤ loadFactor h ∧ loadFactor h ≤ 1.1) ∧
    (∀ (line : TransmissionLine) (hour : ℕ) (w : WeatherState),
      predict_load_mw line hour w =
        line.baseline_fraction * line.static_rating_mva * loadFactor hour * weather_adjustment w) := by
  refine ⟨rfl, by norm_num [loadFactor, loadFactors], by norm_num [loadFactor, loadFactors], ?_, ?_⟩
  · intro h hh
    interval_cases h <;> norm_num [loadFactor, loadFactors]
  · intro line hour w
    rfl

/-- Witness for C8 at hour 5. -/
theorem loadFactors_table_spec_witness :
    5 < 24 ∧ ((0.9 : ℚ) ≤ loadFactor 5 ∧ loadFactor 5 ≤ 1.1) :=
  ⟨by decide, loadFactors_table_spec.2.2.2.1 5 (by decide)⟩

/-- C9: the load-factor table is symmetric about the 06:00/18:00 axis, every
entry lies in [0.9, 1.1], 0.9 is attained only at hour 6 and 1.1 only at
hour 18. -/
theorem loadFactors_symmetric :
    ∀ h : ℕ, h < 24 →
      loadFactor h = loadFactor ((12 - (h : ℤ)) % 24).toNat ∧
      0.9 ≤ loadFactor h ∧ loadFactor h ≤ 1.1 ∧
      (loadFactor h = 0.9 ↔ h = 6) ∧
      (loadFactor h = 1.1 ↔ h = 18) := by
  intro h hh
  interval_cases h <;> norm_num [loadFactor, loadFactors, Int.toNat_ofNat] <;> rfl

/-- Witness for C9 at hour 13, whose mirror hour is 23. -/
theorem loadFactors_symmetric_witness :
    13 < 24 ∧
    (loadFactor 13 = loadFactor ((12 - (13 : ℤ)) % 24).toNat ∧
     0.9 ≤ loadFactor 13 ∧ loadFactor 13 ≤ 1.1 ∧
     (loadFactor 13 = 0.9 ↔ 13 = 6) ∧
     (loadFactor 13 = 1.1 ↔ 13 = 18)) :=
  ⟨by decide, loadFactors_symmetric 13 (by decide)⟩

/-- C10: when the weather-enabled endpoint throws, getAllLinesWithWeather
falls back to the plain endpoint and (when that one responds) returns the
hardcoded default weather, the fallback array and its length, regardless of
any custom weather the caller supplied. -/
theorem getAllLinesWithWeather_fallback {α : Type}
    (weatherSource scenarioName : String) (limit : Option ℕ)
    (customWeather : Option CustomWeather)
    (callWeatherEndpoint : RequestParams → Except String (LinesPayload α))
    (callGetAllLines : Option ℕ → Except String (List α))
    (err : String) (ls : List α)
    (hfail : callWeatherEndpoint
      (build_weather_params weatherSource scenarioName limit customWeather) = Except.error err)
    (hfallback : callGetAllLines (truthy_limit limit) = Except.ok ls) :
    getAllLinesWithWeather weatherSource scenarioName limit customWeather
      callWeatherEndpoint callGetAllLines =
      Except.ok ⟨⟨"default", 30, 2⟩, ls.length, ls⟩ := by
  unfold getAllLinesWithWeather
  rw [hfail, hfallback]
  rfl

/-- Witness for C10: a failing weather endpoint and a three-line fallback
response, with custom weather supplied that the result does not contain. -/
theorem getAllLinesWithWeather_fallback_witness :
    ((fun _ : RequestParams => (Except.error "boom" : Except String (LinesPayload ℕ)))
        (build_weather_params "manual" "normal_summer" (some 5) (some ⟨44, 0.5, 15, 70⟩)) =
      Except.error "boom") ∧
    ((fun _ : Option ℕ => (Except.ok [7, 8, 9] : Except String (List ℕ)))
        (truthy_limit (some 5)) = Except.ok [7, 8, 9]) ∧
    getAllLinesWithWeather "manual" "normal_summer" (some 5) (some ⟨44, 0.5, 15, 70⟩)
      (fun _ => Except.error "boom") (fun _ => Except.ok [7, 8, 9]) =
      Except.ok ⟨⟨"default", 30, 2⟩, 3, [7, 8, 9]⟩ :=
  ⟨rfl, rfl,
   getAllLinesWithWeather_fallback "manual" "normal_summer" (some 5) (some ⟨44, 0.5, 15, 70⟩)
     (fun _ => Except.error "boom") (fun _ => Except.ok [7, 8, 9]) "boom" [7, 8, 9] rfl rfl⟩

/-- Sum of reactance-weighted shares over a list, pulled out of the
conservation proof. -/
lemma sum_map_div_mul (L : List ℚ) (S F : ℚ) :
    (L.map fun b => b / S * F).sum = L.sum / S * F := by
  induction L with
  | nil => simp
  | cons x xs ih =>
    simp only [List.map_cons, List.sum_cons, ih]
    ring

/-- The susceptance total over a nonempty list of positive-reactance lines is
positive. -/
lemma susceptance_sum_pos (L : List TransmissionLine) (hne : L ≠ [])
    (hx : ∀ l ∈ L, 0 < l.reactance_pu) : 0 < (L.map susceptance).sum := by
  apply List.sum_pos
  · intro b hb
    rcases List.mem_map.mp hb with ⟨l, hl, rfl⟩
    have := hx l hl
    unfold susceptance
    positivity
  · simpa [List.map_eq_nil_iff] using hne

/-- C6: for every topology, baseline flow solution and failed line with at
least one parallel path (all parallel reactances positive), analyze returns a
result in which the flow increases over the affected lines sum exactly to the
failed line's pre-outage flow, and every affected record's post-outage flow
is its baseline flow plus its share (LODF times failed flow). -/
theorem analyze_conservation (tp : Topology) (flows ratings : String → ℚ)
    (failed_line_id : String) (f : TransmissionLine)
    (hfind : tp.lines.find? (fun l => l.line_id == failed_line_id) = some f)
    (hpar : parallel_lines tp f ≠ [])
    (hx : ∀ l ∈ parallel_lines tp f, 0 < l.reactance_pu) :
    ∃ res : ContingencyResult,
      analyze tp flows ratings failed_line_id = some res ∧
      (res.affected_lines.map fun a => a.flow_increase_mw).sum = flows failed_line_id ∧
      ∀ a ∈ res.affected_lines,
        a.contingency_flow_mw = a.baseline_flow_mw + a.flow_increase_mw ∧
        a.baseline_flow_mw = flows a.line_id ∧
        ∃ l ∈ parallel_lines tp f, a.line_id = l.line_id ∧
          a.flow_increase_mw = lodf tp f l * flows failed_line_id := by
  have hid : f.line_id = failed_line_id := by
    have h := List.find?_some hfind
    simpa using h
  have hperm :
      (((parallel_lines tp f).map (mk_affected tp flows ratings f)).mergeSort
        ranked_before).Perm ((parallel_lines tp f).map (mk_affected tp flows ratings f)) :=
    List.mergeSort_perm _ _
  refine ⟨⟨failed_line_id, flows failed_line_id,
    ((parallel_lines tp f).map (mk_affected tp flows ratings f)).mergeSort ranked_before,
    summarize (((parallel_lines tp f).map (mk_affected tp flows ratings f)).mergeSort
      ranked_before)⟩, ?_, ?_, ?_⟩
  · simp only [analyze, hfind]
  · have hsum :
        ((((parallel_lines tp f).map (mk_affected tp flows ratings f)).mergeSort
            ranked_before).map fun a => a.flow_increase_mw).sum =
          (((parallel_lines tp f).map (mk_affected tp flows ratings f)).map
            fun a => a.flow_increase_mw).sum :=
      (hperm.map fun a => a.flow_increase_mw).sum_eq
    have hmap :
        (((parallel_lines tp f).map (mk_affected tp flows ratings f)).map
          fun a => a.flow_increase_mw) =
        ((parallel_lines tp f).map susceptance).map
          (fun b => b / ((parallel_lines tp f).map susceptance).sum * flows f.line_id) := by
      simp only [List.map_map]
      rfl
    have hS : 0 < ((parallel_lines tp f).map susceptance).sum :=
      susceptance_sum_pos _ hpar hx
    show ((((parallel_lines tp f).map (mk_affected tp flows ratings f)).mergeSort
        ranked_before).map fun a => a.flow_increase_mw).sum = flows failed_line_id
    rw [hsum, hmap, sum_map_div_mul, div_self (ne_of_gt hS), one_mul, hid]
  · intro a ha
    have haA : a ∈ (parallel_lines tp f).map (mk_affected tp flows ratings f) :=
      hperm.mem_iff.mp ha
    rcases List.mem_map.mp haA with ⟨l, hl, rfl⟩
    refine ⟨rfl, rfl, l, hl, rfl, ?_⟩
    show lodf tp f l * flows f.line_id = lodf tp f l * flows failed_line_id
    rw [hid]

/-- Witness for C6: failing line L0 of the concrete four-line topology, whose
parallel circuits are L1 and L2. -/
theorem analyze_conservation_witness :
    parallel_lines tpW l0W ≠ [] ∧
    ∃ res : ContingencyResult,
      analyze tpW flowsW ratingsW "L0" = some res ∧
      (res.affected_lines.map fun a => a.flow_increase_mw).sum = flowsW "L0" ∧
      ∀ a ∈ res.affected_lines,
        a.contingency_flow_mw = a.baseline_flow_mw + a.flow_increase_mw ∧
        a.baseline_flow_mw = flowsW a.line_id ∧
        ∃ l ∈ parallel_lines tpW l0W, a.line_id = l.line_id ∧
          a.flow_increase_mw = lodf tpW l0W l * flowsW "L0" := by
  have hp : parallel_lines tpW l0W = [l1W, l2W] := rfl
  refine ⟨by simp [hp], ?_⟩
  refine analyze_conservation tpW flowsW ratingsW "L0" l0W rfl (by simp [hp]) ?_
  intro l hl
  rw [hp] at hl
  simp only [List.mem_cons, List.not_mem_nil, or_false] at hl
  rcases hl with rfl | rfl
  · norm_num [l1W]
  · norm_num [l2W]

/-- C7: for a failed line that is radial or isolated (no parallel path),
analyze returns normally with an empty affected-lines sequence and a summary
of zero counts and zero redistributed power. -/
theorem analyze_isolated (tp : Topology) (flows ratings : String → ℚ)
    (failed_line_id : String) (f : TransmissionLine)
    (hfind : tp.lines.find? (fun l => l.line_id == failed_line_id) = some f)
    (hpar : parallel_lines tp f = []) :
    ∃ res : ContingencyResult,
      analyze tp flows ratings failed_line_id = some res ∧
      res.affected_lines = [] ∧
      res.summary.total_affected_lines = 0 ∧
      res.summary.overloaded_lines = 0 ∧
      res.summary.critical_lines = 0 ∧
      res.summary.warning_lines = 0 ∧
      res.summary.redistributed_power_mw = 0 := by
  refine ⟨⟨failed_line_id, flows failed_line_id, [], summarize []⟩, ?_, rfl, rfl, rfl, rfl, rfl, rfl⟩
  simp only [analyze, hfind, hpar, List.map_nil, List.mergeSort_nil]

/-- Witness for C7: failing the radial line L3 of the concrete topology. -/
theorem analyze_isolated_witness :
    parallel_lines tpW l3W = [] ∧
    ∃ res : ContingencyResult,
      analyze tpW flowsW ratingsW "L3" = some res ∧
      res.affected_lines = [] ∧
      res.summary.total_affected_lines = 0 ∧
      res.summary.overloaded_lines = 0 ∧
      res.summary.critical_lines = 0 ∧
      res.summary.warning_lines = 0 ∧
      res.summary.redistributed_power_mw = 0 :=
  ⟨rfl, analyze_isolated tpW flowsW ratingsW "L3" l3W rfl rfl⟩

/-- Air density is positive on the physically valid temperature range. -/
lemma air_density_pos {tf : ℚ} (h : -50 ≤ tf) : 0 < air_density tf := by
  unfold air_density
  apply div_pos (by norm_num)
  nlinarith

/-- Air density falls as the film temperature rises. -/
lemma air_density_anti {t1 t2 : ℚ} (h1 : -50 ≤ t1) (h12 : t1 ≤ t2) :
    air_density t2 ≤ air_density t1 := by
  unfold air_density
  have d1 : (0 : ℚ) < 1 + 0.00367 * t1 := by nlinarith
  have d2 : (0 : ℚ) < 1 + 0.00367 * t2 := by nlinarith
  rw [div_le_div_iff₀ d2 d1]
  nlinarith

/-- Air viscosity is positive on the physically valid temperature range. -/
lemma air_viscosity_pos {tf : ℚ} (h : -50 ≤ tf) : 0 < air_viscosity tf := by
  unfold air_viscosity
  apply div_pos ?_ (by norm_num)
  nlinarith

/-- Air viscosity grows with the film temperature. -/
lemma air_viscosity_mono {t1 t2 : ℚ} (h12 : t1 ≤ t2) :
    air_viscosity t1 ≤ air_viscosity t2 := by
  unfold air_viscosity
  rw [div_le_div_iff₀ (by norm_num) (by norm_num)]
  nlinarith

/-- The film temperature stays above -50 Celsius whenever the ambient does
and the conductor limit is not below the ambient. -/
lemma film_temp_lb (c : ConductorSpec) (w : WeatherState)
    (hta : -50 ≤ w.temp_ambient_c) (hT : w.temp_ambient_c ≤ c.temp_conductor_max_c) :
    -50 ≤ film_temp_c c w := by
  unfold film_temp_c
  linarith

/-- The sine of an angle in [0, 180] degrees is nonnegative. -/
lemma sin_deg_nonneg {deg : ℚ} (h0 : 0 ≤ deg) (h180 : deg ≤ 180) : 0 ≤ sin_deg deg := by
  unfold sin_deg
  apply Real.sin_nonneg_of_nonneg_of_le_pi
  · have hd : (0 : ℝ) ≤ (deg : ℝ) := by exact_mod_cast h0
    positivity
  · have hd : (deg : ℝ) ≤ 180 := by exact_mod_cast h180
    nlinarith [Real.pi_pos]

/-- C2: rate computes I = sqrt(max(0, Qc + Qr - Qs) / R(Tc_max)); whenever
the heat balance Qc + Qr - Qs is nonpositive the returned ampacity is
exactly zero, and the result is always a nonnegative real. -/
theorem rate_clamps_at_zero (c : ConductorSpec) (w : WeatherState) :
    rate c w =
      Real.sqrt (max 0 (qc_convective c w + (qr_radiative c w : ℝ) - qs_solar c w) /
        (c.r_high_ohm_per_m : ℝ)) ∧
    (qc_convective c w + (qr_radiative c w : ℝ) - qs_solar c w ≤ 0 → rate c w = 0) ∧
    0 ≤ rate c w := by
  refine ⟨rfl, ?_, Real.sqrt_nonneg _⟩
  intro h
  have h2 : q_net c w ≤ 0 := h
  unfold rate
  rw [max_eq_left h2, zero_div, Real.sqrt_zero]

/-- Witness for C2: ambient equal to the maximum conductor temperature at
solar noon, where the solar gain exceeds the zero cooling budget. -/
theorem rate_clamps_at_zero_witness :
    (qc_convective condZeroW weatherZeroW + (qr_radiative condZeroW weatherZeroW : ℝ) -
      qs_solar condZeroW weatherZeroW ≤ 0) ∧
    rate condZeroW weatherZeroW = 0 := by
  have hdt : ((condZeroW.temp_conductor_max_c - weatherZeroW.temp_ambient_c : ℚ) : ℝ) = 0 := by
    norm_num [condZeroW, weatherZeroW]
  have hnat : qc_natural condZeroW weatherZeroW = 0 := by
    unfold qc_natural
    rw [hdt, Real.zero_rpow (by norm_num), mul_zero]
  have hforced : qc_forced condZeroW weatherZeroW = 0 := by
    unfold qc_forced
    rw [hdt, mul_zero]
  have hqc : qc_convective condZeroW weatherZeroW = 0 := by
    unfold qc_convective
    rw [hnat, hforced, max_self]
  have hqr : qr_radiative condZeroW weatherZeroW = 0 := by
    norm_num [qr_radiative, condZeroW, weatherZeroW]
  have hsin : sin_deg 90 = 1 := by
    unfold sin_deg
    have h90 : ((90 : ℚ) : ℝ) * Real.pi / 180 = Real.pi / 2 := by
      push_cast
      ring
    rw [h90, Real.sin_pi_div_two]
  have halt : weatherZeroW.solar_altitude = 90 := rfl
  have hqs : qs_solar condZeroW weatherZeroW = 14 := by
    unfold qs_solar q_se
    rw [halt, if_neg (by norm_num), if_neg (by norm_num), hsin]
    norm_num [condZeroW]
  have hle : qc_convective condZeroW weatherZeroW +
      (qr_radiative condZeroW weatherZeroW : ℝ) - qs_solar condZeroW weatherZeroW ≤ 0 := by
    rw [hqc, hqr, hqs]
    norm_num
  exact ⟨hle, (rate_clamps_at_zero condZeroW weatherZeroW).2.1 hle⟩

/-- Division of both sides of an inequality by the same positive
denominator. -/
lemma div_le_div_same_denom {a b c : ℝ} (hc : 0 < c) (h : a ≤ b) : a / c ≤ b / c := by
  rw [div_le_div_iff₀ hc hc]
  exact mul_le_mul_of_nonneg_right h hc.le

/-- Ampacity is monotone in the net heat budget (shared ending of the
monotonicity proofs). -/
lemma rate_le_rate_of_q_net_le {c : ConductorSpec} {w1 w2 : WeatherState}
    (hR : 0 < c.r_high_ohm_per_m) (h : q_net c w1 ≤ q_net c w2) :
    rate c w1 ≤ rate c w2 := by
  unfold rate
  apply Real.sqrt_le_sqrt
  have hRr : (0 : ℝ) < (c.r_high_ohm_per_m : ℝ) := by exact_mod_cast hR
  exact div_le_div_same_denom hRr (max_le_max le_rfl h)

/-- C3: with the conductor valid, both weather states valid and equal except
in wind speed, both wind speeds positive and the ambient temperature not
above the conductor's maximum temperature, ampacity is monotonically
non-decreasing in wind speed. -/
theorem rate_mono_wind (c : ConductorSpec) (w1 w2 : WeatherState)
    (hc : c.valid) (hv1 : w1.valid) (hv2 : w2.valid)
    (htemp : w1.temp_ambient_c = w2.temp_ambient_c)
    (hang : w1.wind_angle_deg = w2.wind_angle_deg)
    (halt : w1.solar_altitude = w2.solar_altitude)
    (_hhum : w1.humidity_pct = w2.humidity_pct)
    (_hpos : 0 < w1.wind_speed_ms)
    (hlt : w1.wind_speed_ms < w2.wind_speed_ms)
    (hT : w1.temp_ambient_c ≤ c.temp_conductor_max_c) :
    rate c w1 ≤ rate c w2 := by
  obtain ⟨hD, hε0, hε1, hα0, hα1, hRl, hRlh⟩ := hc
  obtain ⟨hta1, htb1, hws1, hwa1, hwb1, hsa1, hsb1, hhu1, hhv1⟩ := hv1
  obtain ⟨hta2, htb2, hws2, hwa2, hwb2, hsa2, hsb2, hhu2, hhv2⟩ := hv2
  have hfilm : film_temp_c c w1 = film_temp_c c w2 := by
    unfold film_temp_c
    rw [htemp]
  have hfl : -50 ≤ film_temp_c c w1 := film_temp_lb c w1 hta1 hT
  have hρ : 0 < air_density (film_temp_c c w1) := air_density_pos hfl
  have hμ : 0 < air_viscosity (film_temp_c c w1) := air_viscosity_pos hfl
  have hRe : reynolds c w1 ≤ reynolds c w2 := by
    unfold reynolds
    rw [← hfilm]
    have h1 : 0 ≤ c.diameter_m * air_density (film_temp_c c w1) :=
      mul_nonneg hD.le hρ.le
    have h2 := mul_le_mul_of_nonneg_left hlt.le h1
    gcongr
  have hRe0 : (0 : ℚ) ≤ reynolds c w1 := by
    unfold reynolds
    exact div_nonneg (mul_nonneg (mul_nonneg hD.le hρ.le) hws1) hμ.le
  have hsinn : 0 ≤ sin_deg w2.wind_angle_deg := sin_deg_nonneg hwa2 (by linarith)
  have hΔr : (0 : ℝ) ≤ ((c.temp_conductor_max_c - w2.temp_ambient_c : ℚ) : ℝ) := by
    have : (0 : ℚ) ≤ c.temp_conductor_max_c - w2.temp_ambient_c := by
      rw [← htemp]
      linarith
    exact_mod_cast this
  have hfor : qc_forced c w1 ≤ qc_forced c w2 := by
    unfold qc_forced
    rw [hang, htemp]
    have hB : 1.01 + 1.347 * (reynolds c w1 : ℝ) ^ (0.52 : ℝ) ≤
        1.01 + 1.347 * (reynolds c w2 : ℝ) ^ (0.52 : ℝ) := by
      have hx0 : (0 : ℝ) ≤ ((reynolds c w1 : ℚ) : ℝ) := by exact_mod_cast hRe0
      have hxy : ((reynolds c w1 : ℚ) : ℝ) ≤ ((reynolds c w2 : ℚ) : ℝ) := by exact_mod_cast hRe
      have h := Real.rpow_le_rpow hx0 hxy (by norm_num : (0:ℝ) ≤ 0.52)
      nlinarith [h]
    have hk : (0 : ℝ) ≤ (k_air : ℝ) := by norm_num [k_air]
    apply mul_le_mul_of_nonneg_right ?_ hΔr
    apply mul_le_mul_of_nonneg_right ?_ hk
    exact mul_le_mul_of_nonneg_left hB hsinn
  have hnat : qc_natural c w1 = qc_natural c w2 := by
    unfold qc_natural
    rw [hfilm, htemp]
  have hqr : qr_radiative c w1 = qr_radiative c w2 := by
    unfold qr_radiative
    rw [htemp]
  have hqs : qs_solar c w1 = qs_solar c w2 := by
    unfold qs_solar q_se
    rw [halt]
  have hnet : q_net c w1 ≤ q_net c w2 := by
    unfold q_net
    rw [hqr, hqs]
    have hqc : qc_convective c w1 ≤ qc_convective c w2 :=
      max_le_max (le_of_eq hnat) hfor
    linarith
  exact rate_le_rate_of_q_net_le (lt_trans hRl hRlh) hnet

/-- Witness for C3: the drake-class conductor at 35 Celsius with the wind
raised from 1.5 to 3 m/s. -/
theorem rate_mono_wind_witness :
    condW.valid ∧ weatherW.valid ∧ weatherWindW.valid ∧
    0 < weatherW.wind_speed_ms ∧ weatherW.wind_speed_ms < weatherWindW.wind_speed_ms ∧
    rate condW weatherW ≤ rate condW weatherWindW :=
  ⟨by norm_num [ConductorSpec.valid, condW],
   by norm_num [WeatherState.valid, weatherW],
   by norm_num [WeatherState.valid, weatherWindW],
   by norm_num [weatherW],
   by norm_num [weatherW, weatherWindW],
   rate_mono_wind condW weatherW weatherWindW
     (by norm_num [ConductorSpec.valid, condW])
     (by norm_num [WeatherState.valid, weatherW])
     (by norm_num [WeatherState.valid, weatherWindW])
     rfl rfl rfl rfl
     (by norm_num [weatherW])
     (by norm_num [weatherW, weatherWindW])
     (by norm_num [weatherW, condW])⟩

set_option maxHeartbeats 1000000 in
/-- C4: with the conductor valid, both weather states valid and equal except
in ambient temperature, and the hotter ambient still not above the
conductor's maximum temperature, ampacity is monotonically non-increasing in
ambient temperature. -/
theorem rate_antitone_temp (c : ConductorSpec) (w1 w2 : WeatherState)
    (hc : c.valid) (hv1 : w1.valid) (hv2 : w2.valid)
    (hwind : w1.wind_speed_ms = w2.wind_speed_ms)
    (hang : w1.wind_angle_deg = w2.wind_angle_deg)
    (halt : w1.solar_altitude = w2.solar_altitude)
    (_hhum : w1.humidity_pct = w2.humidity_pct)
    (hlt : w1.temp_ambient_c < w2.temp_ambient_c)
    (hT : w2.temp_ambient_c ≤ c.temp_conductor_max_c) :
    rate c w2 ≤ rate c w1 := by
  obtain ⟨hD, hε0, hε1, hα0, hα1, hRl, hRlh⟩ := hc
  obtain ⟨hta1, htb1, hws1, hwa1, hwb1, hsa1, hsb1, hhu1, hhv1⟩ := hv1
  obtain ⟨hta2, htb2, hws2, hwa2, hwb2, hsa2, hsb2, hhu2, hhv2⟩ := hv2
  have hT1 : w1.temp_ambient_c ≤ c.temp_conductor_max_c := le_trans hlt.le hT
  have hfm : film_temp_c c w1 ≤ film_temp_c c w2 := by
    unfold film_temp_c
    linarith
  have hf1 : -50 ≤ film_temp_c c w1 := film_temp_lb c w1 hta1 hT1
  have hf2 : -50 ≤ film_temp_c c w2 := film_temp_lb c w2 hta2 hT
  have hρ1 : 0 < air_density (film_temp_c c w1) := air_density_pos hf1
  have hρ2 : 0 < air_density (film_temp_c c w2) := air_density_pos hf2
  have hρa : air_density (film_temp_c c w2) ≤ air_density (film_temp_c c w1) :=
    air_density_anti hf1 hfm
  have hμ1 : 0 < air_viscosity (film_temp_c c w1) := air_viscosity_pos hf1
  have hμ2 : 0 < air_viscosity (film_temp_c c w2) := air_viscosity_pos hf2
  have hμm : air_viscosity (film_temp_c c w1) ≤ air_viscosity (film_temp_c c w2) :=
    air_viscosity_mono hfm
  have hRe : reynolds c w2 ≤ reynolds c w1 := by
    unfold reynolds
    rw [← hwind]
    exact div_le_div₀ (mul_nonneg (mul_nonneg hD.le hρ1.le) hws1)
      (mul_le_mul_of_nonneg_right (mul_le_mul_of_nonneg_left hρa hD.le) hws1)
      hμ1 hμm
  have hRe0 : (0 : ℚ) ≤ reynolds c w2 := by
    unfold reynolds
    exact div_nonneg (mul_nonneg (mul_nonneg hD.le hρ2.le) hws2) hμ2.le
  have hΔ2 : (0 : ℚ) ≤ c.temp_conductor_max_c - w2.temp_ambient_c := by linarith
  have hΔ2r : (0 : ℝ) ≤ ((c.temp_conductor_max_c - w2.temp_ambient_c : ℚ) : ℝ) := by
    exact_mod_cast hΔ2
  have hΔmr : ((c.temp_conductor_max_c - w2.temp_ambient_c : ℚ) : ℝ) ≤
      ((c.temp_conductor_max_c - w1.temp_ambient_c : ℚ) : ℝ) := by
    have : c.temp_conductor_max_c - w2.temp_ambient_c ≤
        c.temp_conductor_max_c - w1.temp_ambient_c := by linarith
    exact_mod_cast this
  have hsinn : 0 ≤ sin_deg w1.wind_angle_deg := sin_deg_nonneg hwa1 (by linarith)
  have hk : (0 : ℝ) ≤ (k_air : ℝ) := by norm_num [k_air]
  have hfor : qc_forced c w2 ≤ qc_forced c w1 := by
    unfold qc_forced
    rw [← hang]
    have hB : 1.01 + 1.347 * (reynolds c w2 : ℝ) ^ (0.52 : ℝ) ≤
        1.01 + 1.347 * (reynolds c w1 : ℝ) ^ (0.52 : ℝ) := by
      have hx0 : (0 : ℝ) ≤ ((reynolds c w2 : ℚ) : ℝ) := by exact_mod_cast hRe0
      have hxy : ((reynolds c w2 : ℚ) : ℝ) ≤ ((reynolds c w1 : ℚ) : ℝ) := by exact_mod_cast hRe
      have h := Real.rpow_le_rpow hx0 hxy (by norm_num : (0:ℝ) ≤ 0.52)
      nlinarith [h]
    have hB1 : (0 : ℝ) ≤ 1.01 + 1.347 * (reynolds c w1 : ℝ) ^ (0.52 : ℝ) := by
      have hx1 : (0 : ℝ) ≤ ((reynolds c w1 : ℚ) : ℝ) := by exact_mod_cast le_trans hRe0 hRe
      have := Real.rpow_nonneg hx1 (0.52 : ℝ)
      nlinarith [this]
    calc sin_deg w1.wind_angle_deg * (1.01 + 1.347 * (reynolds c w2 : ℝ) ^ (0.52 : ℝ)) *
        (k_air : ℝ) * ((c.temp_conductor_max_c - w2.temp_ambient_c : ℚ) : ℝ) ≤
        sin_deg w1.wind_angle_deg * (1.01 + 1.347 * (reynolds c w1 : ℝ) ^ (0.52 : ℝ)) *
        (k_air : ℝ) * ((c.temp_conductor_max_c - w2.temp_ambient_c : ℚ) : ℝ) := by
          apply mul_le_mul_of_nonneg_right ?_ hΔ2r
          apply mul_le_mul_of_nonneg_right ?_ hk
          exact mul_le_mul_of_nonneg_left hB hsinn
      _ ≤ sin_deg w1.wind_angle_deg * (1.01 + 1.347 * (reynolds c w1 : ℝ) ^ (0.52 : ℝ)) *
        (k_air : ℝ) * ((c.temp_conductor_max_c - w1.temp_ambient_c : ℚ) : ℝ) := by
          apply mul_le_mul_of_nonneg_left hΔmr
          exact mul_nonneg (mul_nonneg hsinn hB1) hk
  have hnat : qc_natural c w2 ≤ qc_natural c w1 := by
    unfold qc_natural
    have h1 : ((air_density (film_temp_c c w2) : ℚ) : ℝ) ^ (0.5 : ℝ) ≤
        ((air_density (film_temp_c c w1) : ℚ) : ℝ) ^ (0.5 : ℝ) :=
      Real.rpow_le_rpow (by exact_mod_cast hρ2.le) (by exact_mod_cast hρa) (by norm_num)
    have h2 : ((c.temp_conductor_max_c - w2.temp_ambient_c : ℚ) : ℝ) ^ (1.25 : ℝ) ≤
        ((c.temp_conductor_max_c - w1.temp_ambient_c : ℚ) : ℝ) ^ (1.25 : ℝ) :=
      Real.rpow_le_rpow hΔ2r hΔmr (by norm_num)
    have hDr : (0 : ℝ) ≤ ((c.diameter_m : ℚ) : ℝ) ^ (0.75 : ℝ) :=
      Real.rpow_nonneg (by exact_mod_cast hD.le) _
    have hρ1r : (0 : ℝ) ≤ ((air_density (film_temp_c c w1) : ℚ) : ℝ) ^ (0.5 : ℝ) :=
      Real.rpow_nonneg (by exact_mod_cast hρ1.le) _
    calc 3.645 * ((air_density (film_temp_c c w2) : ℚ) : ℝ) ^ (0.5 : ℝ) *
        ((c.diameter_m : ℚ) : ℝ) ^ (0.75 : ℝ) *
        ((c.temp_conductor_max_c - w2.temp_ambient_c : ℚ) : ℝ) ^ (1.25 : ℝ) ≤
        3.645 * ((air_density (film_temp_c c w1) : ℚ) : ℝ) ^ (0.5 : ℝ) *
        ((c.diameter_m : ℚ) : ℝ) ^ (0.75 : ℝ) *
        ((c.temp_conductor_max_c - w2.temp_ambient_c : ℚ) : ℝ) ^ (1.25 : ℝ) := by
          apply mul_le_mul_of_nonneg_right ?_ (Real.rpow_nonneg hΔ2r _)
          apply mul_le_mul_of_nonneg_right ?_ hDr
          nlinarith [h1]
      _ ≤ 3.645 * ((air_density (film_temp_c c w1) : ℚ) : ℝ) ^ (0.5 : ℝ) *
        ((c.diameter_m : ℚ) : ℝ) ^ (0.75 : ℝ) *
        ((c.temp_conductor_max_c - w1.temp_ambient_c : ℚ) : ℝ) ^ (1.25 : ℝ) := by
          apply mul_le_mul_of_nonneg_left h2
          exact mul_nonneg (mul_nonneg (by norm_num) hρ1r) hDr
  have hqr : qr_radiative c w2 ≤ qr_radiative c w1 := by
    unfold qr_radiative
    have hbase : ((w1.temp_ambient_c + 273) / 100) ^ 4 ≤ ((w2.temp_ambient_c + 273) / 100) ^ 4 :=
      pow_le_pow_left₀ (by linarith) (by linarith) 4
    have hK : (0 : ℚ) ≤ 17.8 * c.diameter_m * c.emissivity :=
      mul_nonneg (mul_nonneg (by norm_num) hD.le) hε0
    exact mul_le_mul_of_nonneg_left (sub_le_sub_left hbase _) hK
  have hqs : qs_solar c w1 = qs_solar c w2 := by
    unfold qs_solar q_se
    rw [halt]
  have hnet : q_net c w2 ≤ q_net c w1 := by
    unfold q_net
    rw [← hqs]
    have hqc : qc_convective c w2 ≤ qc_convective c w1 := max_le_max hnat hfor
    have hqrr : ((qr_radiative c w2 : ℚ) : ℝ) ≤ ((qr_radiative c w1 : ℚ) : ℝ) := by
      exact_mod_cast hqr
    linarith
  exact rate_le_rate_of_q_net_le (lt_trans hRl hRlh) hnet

/-- Witness for C4: the drake-class conductor with the ambient raised from
35 to 42 Celsius. -/
theorem rate_antitone_temp_witness :
    condW.valid ∧ weatherW.valid ∧ weatherHotW.valid ∧
    weatherW.temp_ambient_c < weatherHotW.temp_ambient_c ∧
    weatherHotW.temp_ambient_c ≤ condW.temp_conductor_max_c ∧
    rate condW weatherHotW ≤ rate condW weatherW :=
  ⟨by norm_num [ConductorSpec.valid, condW],
   by norm_num [WeatherState.valid, weatherW],
   by norm_num [WeatherState.valid, weatherHotW],
   by norm_num [weatherW, weatherHotW],
   by norm_num [weatherHotW, condW],
   rate_antitone_temp condW weatherW weatherHotW
     (by norm_num [ConductorSpec.valid, condW])
     (by norm_num [WeatherState.valid, weatherW])
     (by norm_num [WeatherState.valid, weatherHotW])
     rfl rfl rfl rfl
     (by norm_num [weatherW, weatherHotW])
     (by norm_num [weatherHotW, condW])⟩

/-- Lower and upper bounds of the load-factor table on the 24 in-range
hours. -/
lemma loadFactor_bounds (h : ℕ) (hh : h < 24) :
    0.9 ≤ loadFactor h ∧ loadFactor h ≤ 1.1 := by
  interval_cases h <;> norm_num [loadFactor, loadFactors]

/-- The hourly load factor is nonnegative for every hour. -/
lemma loadFactor_nonneg (h : ℕ) : 0 ≤ loadFactor h := by
  rcases lt_or_le h 24 with hlt | hge
  · linarith [(loadFactor_bounds h hlt).1]
  · have hlen : loadFactors.length = 24 := rfl
    unfold loadFactor
    rw [List.getD_eq_default]
    · norm_num
    · rw [hlen]
      exact hge

/-- C5: for a line with nonnegative baseline fraction and rating and
positive voltage, and two valid-shaped weather states equal except in
ambient temperature with both above the 22 Celsius comfort point, predicted
load (MW and amperes) is monotonically non-decreasing in temperature. -/
theorem predict_mono_temp (line : TransmissionLine) (hour : ℕ) (w1 w2 : WeatherState)
    (hfrac : 0 ≤ line.baseline_fraction) (hrating : 0 ≤ line.static_rating_mva)
    (hvolt : 0 < line.voltage_kv)
    (_hwind : w1.wind_speed_ms = w2.wind_speed_ms)
    (_hang : w1.wind_angle_deg = w2.wind_angle_deg)
    (_halt : w1.solar_altitude = w2.solar_altitude)
    (_hhum : w1.humidity_pct = w2.humidity_pct)
    (_h22 : 22 < w1.temp_ambient_c)
    (hlt : w1.temp_ambient_c < w2.temp_ambient_c) :
    predict_load_mw line hour w1 ≤ predict_load_mw line hour w2 ∧
    predict_current_a line hour w1 ≤ predict_current_a line hour w2 := by
  have hadj : weather_adjustment w1 ≤ weather_adjustment w2 := by
    unfold weather_adjustment temp_sensitivity_per_c comfort_temp_c
    have hm : max 0 (w1.temp_ambient_c - 22) ≤ max 0 (w2.temp_ambient_c - 22) :=
      max_le_max le_rfl (by linarith)
    nlinarith [hm]
  have hbase : 0 ≤ baseline_load_mw line := mul_nonneg hfrac hrating
  have hlf : 0 ≤ loadFactor hour := loadFactor_nonneg hour
  have hmw : predict_load_mw line hour w1 ≤ predict_load_mw line hour w2 := by
    unfold predict_load_mw
    exact mul_le_mul_of_nonneg_left hadj (mul_nonneg hbase hlf)
  refine ⟨hmw, ?_⟩
  unfold predict_current_a
  have hnum : (predict_load_mw line hour w1 : ℝ) * 1000 ≤
      (predict_load_mw line hour w2 : ℝ) * 1000 := by
    have hcast : (predict_load_mw line hour w1 : ℝ) ≤ (predict_load_mw line hour w2 : ℝ) := by
      exact_mod_cast hmw
    linarith
  have hden : (0 : ℝ) < Real.sqrt 3 * (line.voltage_kv : ℝ) * (power_factor : ℝ) := by
    have h3 : (0 : ℝ) < Real.sqrt 3 := Real.sqrt_pos.mpr (by norm_num)
    have hv : (0 : ℝ) < (line.voltage_kv : ℝ) := by exact_mod_cast hvolt
    have hpf : (0 : ℝ) < (power_factor : ℝ) := by norm_num [power_factor]
    exact mul_pos (mul_pos h3 hv) hpf
  exact div_le_div_same_denom hden hnum

/-- Witness for C5: line l0W at noon with the ambient raised from 35 to
42 Celsius. -/
theorem predict_mono_temp_witness :
    0 ≤ l0W.baseline_fraction ∧ 0 < l0W.voltage_kv ∧
    22 < weatherW.temp_ambient_c ∧
    weatherW.temp_ambient_c < weatherHotW.temp_ambient_c ∧
    (predict_load_mw l0W 12 weatherW ≤ predict_load_mw l0W 12 weatherHotW ∧
     predict_current_a l0W 12 weatherW ≤ predict_current_a l0W 12 weatherHotW) :=
  ⟨by norm_num [l0W], by norm_num [l0W], by norm_num [weatherW],
   by norm_num [weatherW, weatherHotW],
   predict_mono_temp l0W 12 weatherW weatherHotW
     (by norm_num [l0W]) (by norm_num [l0W]) (by norm_num [l0W])
     rfl rfl rfl rfl
     (by norm_num [weatherW])
     (by norm_num [weatherW, weatherHotW])⟩

end DLR
